import Mathlib

/-!
Verification of the EchoNet peer-validation consensus core.

Shallow embedding of the relevant parts of the repository:
  - `src/fetch_services/agents/node.py` (the device-node agent: consensus
    engine, escalation tracker, geo-bucketing, signing helpers),
  - `src/fetch_services/agents/regional_agent.py` (the regional worker agent,
    whose consensus engine is line-for-line the same as the node's in the
    parts treated here, except for its `read_registry`),
  - `src/fetch_services/consensus/consensus_logic.py` (the standalone
    `SmartConsensus` variant).

Modelling conventions:
  - Python floats are modelled as real numbers (`ℝ`) in the acceptance model
    (where `math.log10`, `math.sin`, ... occur) and as rationals (`ℚ`) in the
    consensus engine (where only comparisons, `math.floor` and `math.ceil`
    occur), so that the engine stays computable.
  - Cryptographic primitives are kept abstract: SHA-256 appears as a function
    parameter `sha256 : String → String`, ECDSA verification as a parameter
    `verify : publicKey → digest → signature → Bool` (a parse failure of key
    or signature raises in Python and leads to the same early return as a
    `False` verdict, so both are the `false` value of `verify`), agent-address
    derivation (`Identity.from_seed`) as a parameter
    `deriveAddr : seed → address`, and `private_key.sign(get_digest(...))`
    on the fan-out path as a parameter applied to the payload fields.
  - Dictionaries are association lists with Python-dict update semantics
    (`insertKey` replaces, `eraseKey` deletes the key).
  - Wall-clock timestamps (the `"timestamp": datetime.now(...)` field of a
    pending event) and log output are not modelled; neither influences any
    control flow treated here.
-/

namespace FetchDev

/-- Shared tunable constants, defined with identical values at the top of both
`node.py` (lines 86-89) and `consensus_logic.py` (lines 4-7). -/
def REFERENCE_DISTANCE : ℝ := 1

/-- Noise floor (dB) under which a peer's own reading cannot falsify a claim. -/
def NOISE_FLOOR_THRESHOLD : ℝ := 20

/-- Calibration margin in dB (`CALIBRATION_MARGIN = 5`). -/
def CALIBRATION_MARGIN : ℝ := 5

/-- Linear absorption, dB per metre (`ATTENUATION_COEFFICIENT = 0.02`). -/
noncomputable def ATTENUATION_COEFFICIENT : ℝ := 2/100

/-- Quorum ratio from `node.py` line 173 / `regional_agent.py` line 92
(`QUORUM_RATIO = 0.45`). -/
def QUORUM_RATIO : ℚ := 45/100

/-- Failure threshold from `node.py` line 168 / `regional_agent.py` line 85. -/
def FAILURE_THRESHOLD : ℕ := 5

/-- Grid size in degrees from `node.py` line 171 / `regional_agent.py` line 89. -/
def GRID_SIZE : ℚ := 1/10

/-- Python's `math.atan2 y x` over the reals. -/
noncomputable def atan2 (y x : ℝ) : ℝ :=
  if 0 < x then Real.arctan (y / x)
  else if x < 0 then
    (if 0 ≤ y then Real.arctan (y / x) + Real.pi else Real.arctan (y / x) - Real.pi)
  else
    (if 0 < y then Real.pi / 2 else if y < 0 then -(Real.pi / 2) else 0)

/-- Great-circle distance, `haversine_distance` of `node.py` lines 91-98 and
`consensus_logic.py` lines 10-22 (the two definitions are identical).
`math.radians x` is `x * π / 180`. -/
noncomputable def haversine_distance (lat1 lon1 lat2 lon2 : ℝ) : ℝ :=
  let R : ℝ := 6371e3
  let phi1 := lat1 * (Real.pi / 180)
  let phi2 := lat2 * (Real.pi / 180)
  let delta_phi := (lat2 - lat1) * (Real.pi / 180)
  let delta_lambda := (lon2 - lon1) * (Real.pi / 180)
  let a := Real.sin (delta_phi / 2) ^ 2 +
    Real.cos phi1 * Real.cos phi2 * Real.sin (delta_lambda / 2) ^ 2
  let c := 2 * atan2 (Real.sqrt a) (Real.sqrt (1 - a))
  R * c

/-- Expected decibel at a distance, `expected_decibel_at_distance` of
`node.py` lines 100-104 and `consensus_logic.py` lines 25-35 (identical):
the distance is floored at `REFERENCE_DISTANCE`, then spreading loss
`20*log10(d/1.0)` and absorption `0.02*(d-1.0)` are subtracted.
`math.log10` is `Real.logb 10`. -/
noncomputable def expected_decibel_at_distance (source_db distance : ℝ) : ℝ :=
  let d := if distance < REFERENCE_DISTANCE then REFERENCE_DISTANCE else distance
  let spreading_loss := 20 * Real.logb 10 (d / REFERENCE_DISTANCE)
  let absorption_loss := ATTENUATION_COEFFICIENT * (d - REFERENCE_DISTANCE)
  source_db - spreading_loss - absorption_loss

/-- The fields of the incoming `request_data` dict read by `validate_event`
(`location` and `decibel`; the other fields of a `ValidationRequest` are not
used by the acceptance model). -/
structure AcceptRequest where
  location : ℝ × ℝ
  decibel : ℝ

/-- The field of `peer_sensor_data` read by `validate_event`. -/
structure PeerSensorData where
  decibel : ℝ

/-- The fields of `peer_agent_config` read by `validate_event`. -/
structure PeerAgentConfig where
  latitude : ℝ
  longitude : ℝ

namespace Node

/-- Acceptance model of the device node, `SmartConsensus.validate_event` of
`node.py` lines 107-119: a reading below the noise floor returns `False`;
otherwise accept exactly when the peer's own reading is at least the
physically expected level minus the calibration margin. -/
noncomputable def validate_event (request_data : AcceptRequest)
    (peer_sensor_data : PeerSensorData) (peer_agent_config : PeerAgentConfig) : Bool :=
  if peer_sensor_data.decibel < NOISE_FLOOR_THRESHOLD then false
  else
    let distance := haversine_distance request_data.location.1 request_data.location.2
      peer_agent_config.latitude peer_agent_config.longitude
    let expected_db := expected_decibel_at_distance request_data.decibel distance
    decide (peer_sensor_data.decibel ≥ expected_db - CALIBRATION_MARGIN)

end Node

namespace ConsensusLogic

/-- Acceptance model of the standalone variant, `SmartConsensus.validate_event`
of `consensus_logic.py` lines 43-84: a reading below the noise floor returns
`True` (line 58); the physics branch returns `True` both when the peer hears
more than `expected + CALIBRATION_MARGIN` (line 81) and in the fall-through
case (line 84). -/
noncomputable def validate_event (request_data : AcceptRequest)
    (peer_sensor_data : PeerSensorData) (peer_agent_config : PeerAgentConfig) : Bool :=
  if peer_sensor_data.decibel < NOISE_FLOOR_THRESHOLD then true
  else
    let distance := haversine_distance request_data.location.1 request_data.location.2
      peer_agent_config.latitude peer_agent_config.longitude
    let expected_db := expected_decibel_at_distance request_data.decibel distance
    if peer_sensor_data.decibel > expected_db + CALIBRATION_MARGIN then true
    else true

/-- A peer agent config as `consensus_validation` sees it: the latitude and
longitude keys may be missing (the report is then skipped). -/
structure PeerConfigOpt where
  latitude : Option ℝ
  longitude : Option ℝ

/-- Consensus across peers, `SmartConsensus.consensus_validation` of
`consensus_logic.py` lines 86-121: reports without a latitude/longitude key
are skipped, each remaining report contributes weight 1 to the total and, when
`validate_event` accepts, to the accepted weight; the score is the quotient
(0 when the total is 0); both branches of the final threshold test return
`True` (lines 117 and 120). -/
noncomputable def consensus_validation (request_data : AcceptRequest)
    (peer_reports : List (PeerSensorData × PeerConfigOpt)) (threshold : ℝ) : Bool :=
  let ws : ℝ × ℝ := peer_reports.foldl (fun w pr =>
    match pr.2.latitude, pr.2.longitude with
    | some la, some lo =>
        (w.1 + 1,
          if validate_event request_data pr.1 ⟨la, lo⟩ then w.2 + 1 else w.2)
    | _, _ => w) (0, 0)
  let consensus_score := if ws.1 > 0 then ws.2 / ws.1 else 0
  if consensus_score ≥ threshold then true else true

end ConsensusLogic

/-- JSON values occurring in the signed payloads (`json.dumps` inputs of
`get_digest`): strings, booleans and numbers. Payloads are modelled as flat
key/value lists, which covers the signed `{event_id, validated}` and the flat
part of `{event_id, location, sound_class, decibel}`. -/
inductive JVal where
  | s (v : String)
  | b (v : Bool)
  | q (v : ℚ)
deriving DecidableEq

/-- Key ordering used by `json.dumps(..., sort_keys=True)`. -/
def keyLE (a b : String × JVal) : Prop := a.1 ≤ b.1

instance : DecidableRel keyLE := fun a b => inferInstanceAs (Decidable (a.1 ≤ b.1))

instance : IsTotal (String × JVal) keyLE := ⟨fun a b => le_total a.1 b.1⟩

instance : IsTrans (String × JVal) keyLE := ⟨fun _ _ _ h h' => le_trans h h'⟩

/-- Rendering of one JSON value. -/
def JVal.render : JVal → String
  | .s v => "\"" ++ v ++ "\""
  | .b true => "true"
  | .b false => "false"
  | .q v => toString v

/-- Deterministic serialization with sorted keys, modelling
`json.dumps(data, sort_keys=True)`. -/
def dumps (data : List (String × JVal)) : String :=
  let sorted := List.insertionSort keyLE data
  "\x7b" ++ String.intercalate ", "
    (sorted.map (fun kv => "\"" ++ kv.1 ++ "\": " ++ kv.2.render)) ++ "\x7d"

/-- Canonical digest, `get_digest` of `node.py` line 179 and
`regional_agent.py` lines 98-100:
`hashlib.sha256(json.dumps(data, sort_keys=True).encode()).digest()`,
with SHA-256 abstracted as the function parameter `sha256`. -/
def get_digest (sha256 : String → String) (data : List (String × JVal)) : String :=
  sha256 (dumps data)

/-- One registry entry: the fields of a device's config used by the consensus
core (`latitude`, `longitude`, `agent_seed`). -/
structure AgentCfg where
  latitude : ℚ
  longitude : ℚ
  agent_seed : String
deriving DecidableEq

/-- The registry snapshot: a mapping device id (MAC address) to config. -/
abbrev Registry := List (String × AgentCfg)

namespace Node

/-- Registry fetch of the device node, `read_registry` of `node.py` lines
128-136: on a fetch failure it prints a critical error and calls
`sys.exit(1)`, so no registry value is ever produced — modelled as
`Except.error ()`. -/
def read_registry (fetch : Option Registry) : Except Unit Registry :=
  match fetch with
  | some r => Except.ok r
  | none => Except.error ()

end Node

namespace Regional

/-- Registry fetch of the regional agent, `read_registry` of
`regional_agent.py` lines 35-45: on a fetch failure it prints a critical
error and returns the empty dict `\x7b\x7d`. -/
def read_registry (fetch : Option Registry) : Registry :=
  match fetch with
  | some r => r
  | none => []

end Regional

/-- A decoded sensor reading (`SensorData`). -/
structure SensorData where
  device_id : String
  timestamp : String
  decibel : ℚ
deriving DecidableEq

/-- A fanned-out `ValidationRequest` message. -/
structure ValidationRequest where
  event_id : String
  location : ℚ × ℚ
  sound_class : String
  decibel : ℚ
  public_key : String
  signature : String
deriving DecidableEq

/-- An inbound `ValidationResponse` message. -/
structure ValidationResponse where
  event_id : String
  validated : Bool
  public_key : String
  signature : String
deriving DecidableEq

/-- One entry of `pending_events` (the wall-clock creation time is not
modelled). -/
structure PendingEvent where
  raw_data : SensorData
  responses : List ValidationResponse
  predicted_class : String
  confidence : ℚ
deriving DecidableEq

/-- Python dict deletion: drop the key. -/
def eraseKey {α : Type} (l : List (String × α)) (k : String) : List (String × α) :=
  l.filter (fun p => p.1 != k)

/-- Python dict assignment: the key now maps to `v`. -/
def insertKey {α : Type} (l : List (String × α)) (k : String) (v : α) :
    List (String × α) :=
  (k, v) :: eraseKey l k

/-- Python dict lookup (`d.get(k)` / `d[k]`). -/
def lookupKey {α : Type} (l : List (String × α)) (k : String) : Option α :=
  List.lookup k l

/-- String constant used by the reserved-key filter. -/
def underscore : String := "_"

/-- Python's `str.startswith`, modelled on the character lists (Lean's own
`String.startsWith` is byte-position based and does not reduce on literals). -/
def startswith (s p : String) : Bool := p.data.isPrefixOf s.data

/-- Separator of the event-id preimage. -/
def dash : String := "-"

/-- Hardcoded ML result of `node.py` line 261. -/
def ambient_noise : String := "ambient_noise"

/-- Grid cell of a coordinate pair:
`(math.floor(lat / GRID_SIZE), math.floor(lon / GRID_SIZE))`. -/
def grid_id (lat lon : ℚ) : ℤ × ℤ :=
  (Int.floor (lat / GRID_SIZE), Int.floor (lon / GRID_SIZE))

/-- Peer-group resolution, `get_local_peer_group` of `node.py` lines 197-207
and `regional_agent.py` lines 132-143 (identical): every registry entry whose
key does not start with an underscore and whose location falls in the query
location's grid cell contributes the address derived from its seed
(`Identity.from_seed(cfg["agent_seed"], 0)` abstracted as `deriveAddr`); the
result is a set. -/
def get_local_peer_group (deriveAddr : String → String) (registry : Registry)
    (event_location : ℚ × ℚ) : Finset String :=
  ((registry.filter (fun p =>
      !(startswith p.1 underscore) &&
        decide (grid_id p.2.latitude p.2.longitude =
          grid_id event_location.1 event_location.2))).map
    (fun p => deriveAddr p.2.agent_seed)).toFinset

/-- Required quorum as computed inline at `node.py` line 308 and
`regional_agent.py` line 392: `math.ceil(num_peers_in_group * QUORUM_RATIO)`.
The float literal `0.45` is exactly representable enough that the rational
value gives the same ceiling for every group size arising here. -/
def quorum_required (num_peers_in_group : ℤ) : ℤ :=
  Int.ceil ((num_peers_in_group : ℚ) * QUORUM_RATIO)

/-- Escalation bookkeeping inlined at `node.py` lines 315-318 (and
`regional_agent.py` lines 404-415): increment the device's failure count;
when it reaches `FAILURE_THRESHOLD` the slash request is issued
(`cleanup_sensor_and_agent`, the returned flag) and the count is reset to
zero. -/
def recordFailure (counts : List (String × ℕ)) (mac : String) :
    List (String × ℕ) × Bool :=
  let c := (lookupKey counts mac).getD 0 + 1
  if FAILURE_THRESHOLD ≤ c then (insertKey counts mac 0, true)
  else (insertKey counts mac c, false)

/-- The mutable agent state touched by `handle_validation_response`:
`pending_events` and `SENSOR_FAILURE_COUNTS`. -/
structure NodeState where
  pending : List (String × PendingEvent)
  counts : List (String × ℕ)
deriving DecidableEq

/-- Observable outcome of one `handle_validation_response` call: the state
afterwards, the event id for which `final_actions_after_consensus` ran (the
accepted resolution), the device for which a slash request was sent, and
whether the re-fetch lookup `read_registry()[device_id]` raised a `KeyError`. -/
structure RespResult where
  state : NodeState
  accepted : Option String
  slashed : Option String
  keyError : Bool
deriving DecidableEq

/-- The signed payload of a `ValidationResponse`, as rebuilt by the receiver:
`{"event_id": msg.event_id, "validated": msg.validated}`. -/
def respPayload (msg : ValidationResponse) : List (String × JVal) :=
  [("event_id", JVal.s msg.event_id), ("validated", JVal.b msg.validated)]

/-- Observable outcome of one `handle_sensor_data` call: the pending map
afterwards, the peers a `ValidationRequest` was sent to, the request itself,
and the (event id, event) for which `final_actions_after_consensus` ran in the
auto-accept branch. -/
structure SensorResult where
  pending : List (String × PendingEvent)
  sentTo : Finset String
  request : Option ValidationRequest
  accepted : Option (String × PendingEvent)
deriving DecidableEq

namespace Node

/-- Consensus-engine entry for an own reading, `handle_sensor_data` of
`node.py` lines 252-281 (and, with `run_inference` in place of the hardcoded
classifier result, `regional_agent.py` lines 271-336): look the device up in a
fresh registry snapshot (`reg1`; an unknown device returns immediately), take
its registered location, compute the event id as the hex SHA-256 of
`"<device_id>-<timestamp>"` (`hashHex`), resolve the peer group against a
second snapshot (`reg2`, the one `get_local_peer_group` fetches), record the
pending event; a group of size ≤ 1 runs the final accepted-event actions and
deletes the event, sending nothing; otherwise the signed request is sent to
every group member except the agent itself. `signRequest` stands for
`private_key.sign(get_digest(request_data)).hex()` applied to the four
payload fields. -/
def handle_sensor_data (hashHex : String → String) (deriveAddr : String → String)
    (myAddress myPublicKey : String)
    (signRequest : String → ℚ × ℚ → String → ℚ → String)
    (reg1 reg2 : Registry)
    (pending : List (String × PendingEvent)) (msg : SensorData) : SensorResult :=
  match lookupKey reg1 msg.device_id with
  | none => ⟨pending, ∅, none, none⟩
  | some cfg =>
    let registered_location : ℚ × ℚ := (cfg.latitude, cfg.longitude)
    let predicted_class := ambient_noise
    let confidence : ℚ := 99/100
    let event_id := hashHex (msg.device_id ++ dash ++ msg.timestamp)
    let event_local_group := get_local_peer_group deriveAddr reg2 registered_location
    let ev : PendingEvent := ⟨msg, [], predicted_class, confidence⟩
    let pending' := insertKey pending event_id ev
    if event_local_group.card ≤ 1 then
      ⟨eraseKey pending' event_id, ∅, none, some (event_id, ev)⟩
    else
      let request : ValidationRequest :=
        ⟨event_id, registered_location, predicted_class, msg.decibel, myPublicKey,
          signRequest event_id registered_location predicted_class msg.decibel⟩
      ⟨pending', event_local_group.filter (fun a => a ≠ myAddress), some request, none⟩

/-- Response collection, `handle_validation_response` of `node.py` lines
289-319 (and identically `regional_agent.py` lines 362-418): a response for an
unknown event id is dropped; a response whose signature does not verify
against its embedded public key over the canonical digest of
`{event_id, validated}` is discarded (a key/signature parse exception takes
the same early return, so both are `verify ... = false`); otherwise the
response is appended, the peer group is re-resolved from a fresh registry
snapshot (`registry`; a missing device id raises, `keyError`), and either the
positive tally meets the required quorum (accepted: final actions run, event
deleted), or the responses are exhausted without quorum (rejected: failure
recorded, possibly slashing, event deleted), or the event stays open. -/
def handle_validation_response (sha256 : String → String)
    (verify : String → String → String → Bool)
    (deriveAddr : String → String) (registry : Registry)
    (st : NodeState) (msg : ValidationResponse) : RespResult :=
  match lookupKey st.pending msg.event_id with
  | none => ⟨st, none, none, false⟩
  | some event =>
    if verify msg.public_key (get_digest sha256 (respPayload msg)) msg.signature then
      let event' : PendingEvent := { event with responses := event.responses ++ [msg] }
      match lookupKey registry event.raw_data.device_id with
      | none => ⟨⟨insertKey st.pending msg.event_id event', st.counts⟩, none, none, true⟩
      | some cfg =>
        let num_peers_in_group : ℤ :=
          ((get_local_peer_group deriveAddr registry
            (cfg.latitude, cfg.longitude)).card : ℤ) - 1
        let positive_responses : ℤ :=
          ((event'.responses.filter (fun r => r.validated)).length : ℤ)
        if positive_responses ≥ quorum_required num_peers_in_group then
          ⟨⟨eraseKey st.pending msg.event_id, st.counts⟩, some msg.event_id, none, false⟩
        else if (event'.responses.length : ℤ) ≥ num_peers_in_group then
          let rf := recordFailure st.counts event.raw_data.device_id
          ⟨⟨eraseKey st.pending msg.event_id, rf.1⟩, none,
            if rf.2 then some event.raw_data.device_id else none, false⟩
        else
          ⟨⟨insertKey st.pending msg.event_id event', st.counts⟩, none, none, false⟩
    else ⟨st, none, none, false⟩

end Node

/-- Expected decibel level exactly as claim C3 words it: source minus
`20*log10(distance/1.0)` minus `0.02*(distance-1.0)`, the distance floored at
`1.0` m. Stated from the specification's words, to be compared with the
source-derived `expected_decibel_at_distance`. -/
noncomputable def expectedDbClaim (source_db distance : ℝ) : ℝ :=
  source_db - 20 * Real.logb 10 (max distance 1 / 1) - (2/100) * (max distance 1 - 1)

/-!
Concrete fixtures used by the witness and counterexample theorems below: a
one-device registry at the origin, a pending event for that device, and
trivial instantiations of the abstracted cryptographic functions.
-/

/-- Identity stand-in for the abstract SHA-256 parameter. -/
def shaId : String → String := fun s => s

/-- Verification stub that accepts every signature. -/
def verifyAlways : String → String → String → Bool := fun _ _ _ => true

/-- Verification stub that rejects every signature. -/
def verifyNever : String → String → String → Bool := fun _ _ _ => false

/-- Address of the only fixture device. -/
def addrW : String := "addr1"

/-- Address-derivation stub. -/
def addrOf : String → String := fun _ => addrW

/-- Signing stub for the request fan-out. -/
def signNothing : String → ℚ × ℚ → String → ℚ → String := fun e _ _ _ => e

/-- Fixture event id. -/
def eid1 : String := "e1"

/-- Fixture device id. -/
def dev1 : String := "D1"

/-- Fixture device config at the origin. -/
def cfg0 : AgentCfg := ⟨0, 0, "seed1"⟩

/-- Fixture registry holding only `dev1`. -/
def regW : Registry := [(dev1, cfg0)]

/-- Fixture sensor reading from `dev1`. -/
def msgS : SensorData := ⟨dev1, "t0", 50⟩

/-- Fixture pending event for `dev1`. -/
def evW : PendingEvent := ⟨msgS, [], ambient_noise, 0⟩

/-- Fixture positive response for `eid1`. -/
def respT : ValidationResponse := ⟨eid1, true, "pk", "sg"⟩

/-- Fixture negative response for `eid1`. -/
def respF : ValidationResponse := ⟨eid1, false, "pk", "sg"⟩

/-- Fixture state with the event open and no recorded failures. -/
def stW : NodeState := ⟨[(eid1, evW)], []⟩

/-- Fixture state with the event open and three recorded failures for `dev1`. -/
def stW3 : NodeState := ⟨[(eid1, evW)], [(dev1, 3)]⟩

/-- Fixture acceptance request: a 100 dB claim at the origin. -/
noncomputable def rdW : AcceptRequest := ⟨(0, 0), 100⟩

/-- Fixture peer reading below the noise floor. -/
noncomputable def peer10 : PeerSensorData := ⟨10⟩

/-- Fixture peer reading just above the noise floor. -/
noncomputable def peer25 : PeerSensorData := ⟨25⟩

/-- Fixture peer reading at the claimed level. -/
noncomputable def peer100 : PeerSensorData := ⟨100⟩

/-- Fixture peer config co-located with the claim. -/
noncomputable def pcfg0 : PeerAgentConfig := ⟨0, 0⟩

/-- Fixture payload in one construction order. -/
def p1W : List (String × JVal) :=
  [("event_id", JVal.s "x"), ("validated", JVal.b true)]

/-- The same payload constructed in the other field order. -/
def p2W : List (String × JVal) :=
  [("validated", JVal.b true), ("event_id", JVal.s "x")]

/-!
Helper lemmas shared by the claim theorems.
-/

/-- The haversine distance from a point to itself is zero. -/
theorem haversine_same (lat lon : ℝ) : haversine_distance lat lon lat lon = 0 := by
  unfold haversine_distance atan2
  simp [Real.sqrt_zero, Real.sqrt_one, Real.arctan_zero]

/-- At zero distance (floored to the reference distance) the expected level is
the source level. -/
theorem expected_decibel_at_zero (s : ℝ) : expected_decibel_at_distance s 0 = s := by
  unfold expected_decibel_at_distance REFERENCE_DISTANCE ATTENUATION_COEFFICIENT
  norm_num

/-- The claim-side expected-level formula at zero distance. -/
theorem expectedDbClaim_at_zero (s : ℝ) : expectedDbClaim s 0 = s := by
  unfold expectedDbClaim
  rw [max_eq_right (by norm_num : (0:ℝ) ≤ 1)]
  norm_num

/-- The source's expected-level computation agrees with the claim's formula. -/
theorem expected_decibel_eq_claim (s d : ℝ) :
    expected_decibel_at_distance s d = expectedDbClaim s d := by
  unfold expected_decibel_at_distance expectedDbClaim REFERENCE_DISTANCE
    ATTENUATION_COEFFICIENT
  rcases lt_or_le d 1 with h | h
  · rw [if_pos h, max_eq_right h.le]
  · rw [if_neg (not_lt.mpr h), max_eq_left h]

/-- Looking up a deleted key yields nothing. -/
theorem lookup_eraseKey_self {α : Type} (l : List (String × α)) (k : String) :
    lookupKey (eraseKey l k) k = none := by
  induction l with
  | nil => rfl
  | cons p t ih =>
    rcases p with ⟨a, v⟩
    unfold eraseKey at ih ⊢
    rw [List.filter_cons]
    by_cases h : a = k
    · rw [if_neg (by simp [h])]
      exact ih
    · rw [if_pos (by simp [h])]
      unfold lookupKey
      simp only [List.lookup]
      rw [show (k == a) = false by simp [Ne.symm h]]
      exact ih

/-- Two permuted key-sorted lists with duplicate-free keys are equal. -/
theorem eq_of_perm_sorted_nodup :
    ∀ {l₁ l₂ : List (String × JVal)}, l₁.Perm l₂ →
      l₁.Sorted keyLE → l₂.Sorted keyLE → (l₁.map Prod.fst).Nodup → l₁ = l₂ := by
  intro l₁
  induction l₁ with
  | nil =>
    intro l₂ hp _ _ _
    exact (hp.nil_eq).symm ▸ rfl
  | cons a t₁ ih =>
    intro l₂ hp hs₁ hs₂ hn
    cases l₂ with
    | nil => exact absurd hp.symm.nil_eq (by simp)
    | cons b t₂ =>
      have hab : a = b := by
        have ha2 : a ∈ b :: t₂ := hp.subset (List.mem_cons_self a t₁)
        have hb1 : b ∈ a :: t₁ := hp.symm.subset (List.mem_cons_self b t₂)
        rcases List.mem_cons.mp ha2 with h | ha2'
        · exact h
        · rcases List.mem_cons.mp hb1 with h | hb1'
          · exact h.symm
          · have h1 : keyLE a b := (List.sorted_cons.mp hs₁).1 b hb1'
            have h2 : keyLE b a := (List.sorted_cons.mp hs₂).1 a ha2'
            have hk : a.1 = b.1 := le_antisymm h1 h2
            have hmem : b.1 ∈ t₁.map Prod.fst := List.mem_map.mpr ⟨b, hb1', rfl⟩
            rw [List.map_cons] at hn
            have hnd := (List.nodup_cons.mp hn).1
            exact absurd (hk ▸ hmem) hnd
      subst hab
      have ht : t₁.Perm t₂ := hp.cons_inv
      rw [List.map_cons] at hn
      have := ih ht (List.sorted_cons.mp hs₁).2 (List.sorted_cons.mp hs₂).2
        (List.nodup_cons.mp hn).2
      rw [this]

/-- The origin's grid cell. -/
theorem grid00 : grid_id 0 0 = (0, 0) := by
  norm_num [grid_id, GRID_SIZE]

/-- The fixture device id is not a reserved key. -/
theorem sw_dev1 : startswith dev1 underscore = false := by decide

/-- The fixture registry's peer group at the origin is the one fixture
address. -/
theorem groupW_eq :
    get_local_peer_group addrOf regW (cfg0.latitude, cfg0.longitude) = {addrW} := by
  simp only [get_local_peer_group, regW, cfg0]
  simp [grid00, List.filter_cons, sw_dev1, addrOf]

/-- Required quorum for zero expected peers is zero. -/
theorem quorum_required_zero : quorum_required 0 = 0 := by
  norm_num [quorum_required]

/-- Required quorum for four expected peers is two. -/
theorem quorum_required_four : quorum_required (5 - 1) = 2 := by
  norm_num [quorum_required, QUORUM_RATIO, Int.ceil_eq_iff]

/-!
The claims.
-/

/-- C7 (counterexample): in the regional agent, a failed registry fetch does
not propagate — `read_registry` returns the empty registry, a value
indistinguishable from a successful fetch of a registry with no devices. -/
theorem c7_regional_returns_empty :
    Regional.read_registry none = ([] : Registry) ∧
      Regional.read_registry none = Regional.read_registry (some []) :=
  ⟨rfl, rfl⟩

/-- C7 (amended): in the device node, a failed registry fetch fails loudly
(the process exits; modelled as `Except.error`, no registry value is ever
produced) and a successful fetch returns the snapshot unchanged; in the
regional agent, a failed fetch silently returns the empty registry. -/
theorem c7_registry_failure_amended :
    Node.read_registry none = Except.error () ∧
      (∀ r : Registry, Node.read_registry (some r) = Except.ok r) ∧
      Regional.read_registry none = ([] : Registry) :=
  ⟨rfl, fun _ => rfl, rfl⟩

/-- C9: in the standalone `consensus_logic` variant, `validate_event` returns
`True` on every input (each branch of the physics check returns `True`), and
`consensus_validation` returns `True` for every request, every list of peer
reports and every threshold, whether or not the score reaches the threshold:
this variant can never reject an event. -/
theorem c9_consensus_logic_always_true :
    (∀ rd peer cfg, ConsensusLogic.validate_event rd peer cfg = true) ∧
      (∀ rd reports threshold,
        ConsensusLogic.consensus_validation rd reports threshold = true) := by
  constructor
  · intro rd peer cfg
    unfold ConsensusLogic.validate_event
    simp [ite_self]
  · intro rd reports threshold
    unfold ConsensusLogic.consensus_validation
    simp [ite_self]

/-- C2 (counterexample): in the device node's acceptance model, a peer whose
own reading (10 dB) is below `NOISE_FLOOR_THRESHOLD = 20` does not accept:
`validate_event` returns `false`. -/
theorem c2_node_rejects_below_floor : Node.validate_event rdW peer10 pcfg0 = false := by
  unfold Node.validate_event peer10 NOISE_FLOOR_THRESHOLD
  norm_num

/-- C2 (amended): when the peer's own concurrently-held reading is below the
noise floor, the `consensus_logic` variant of `validate_event` accepts
(returns `true`), but the device node's variant rejects (returns `false`);
the two observed implementations diverge on this case. -/
theorem c2_noise_floor_amended (rd : AcceptRequest) (peer : PeerSensorData)
    (cfg : PeerAgentConfig) (h : peer.decibel < NOISE_FLOOR_THRESHOLD) :
    ConsensusLogic.validate_event rd peer cfg = true ∧
      Node.validate_event rd peer cfg = false := by
  constructor
  · unfold ConsensusLogic.validate_event
    rw [if_pos h]
  · unfold Node.validate_event
    rw [if_pos h]

/-- C2 (witness): the amended statement at the 10 dB fixture reading. -/
theorem c2_noise_floor_witness :
    peer10.decibel < NOISE_FLOOR_THRESHOLD ∧
      (ConsensusLogic.validate_event rdW peer10 pcfg0 = true ∧
        Node.validate_event rdW peer10 pcfg0 = false) := by
  have h : peer10.decibel < NOISE_FLOOR_THRESHOLD := by
    unfold peer10 NOISE_FLOOR_THRESHOLD
    norm_num
  exact ⟨h, c2_noise_floor_amended rdW peer10 pcfg0 h⟩

/-- C3 (counterexample): a peer at the event's own location holding 25 dB
(above the noise floor) hears far more than 5 dB less than the 100 dB that
physics predicts there, so by the claim it should reject; the
`consensus_logic` variant of the acceptance model nevertheless returns
`true`. -/
theorem c3_consensus_logic_no_reject :
    ConsensusLogic.validate_event rdW peer25 pcfg0 = true ∧
      peer25.decibel <
        expectedDbClaim rdW.decibel
          (haversine_distance rdW.location.1 rdW.location.2
            pcfg0.latitude pcfg0.longitude) - CALIBRATION_MARGIN := by
  constructor
  · unfold ConsensusLogic.validate_event
    simp [ite_self]
  · have hh : haversine_distance rdW.location.1 rdW.location.2
        pcfg0.latitude pcfg0.longitude = 0 := by
      unfold rdW pcfg0
      exact haversine_same 0 0
    rw [hh]
    unfold rdW peer25 CALIBRATION_MARGIN
    rw [expectedDbClaim_at_zero]
    norm_num

/-- C3 (amended): the node variant of the acceptance model realises the
claim: its expected level is exactly the claim's formula (source minus
`20*log10(d/1.0)` minus `0.02*(d-1.0)`, haversine distance floored at 1 m),
and for a peer reading at or above the noise floor it returns `true` exactly
when that reading is at least the expected value minus 5 dB. The standalone
`consensus_logic` variant computes the same expected value but never rejects,
so the equivalence holds only for the node variant. -/
theorem c3_physics_margin_amended :
    (∀ s d, expected_decibel_at_distance s d = expectedDbClaim s d) ∧
      (∀ (rd : AcceptRequest) (peer : PeerSensorData) (cfg : PeerAgentConfig),
        ¬ peer.decibel < NOISE_FLOOR_THRESHOLD →
          (Node.validate_event rd peer cfg = true ↔
            peer.decibel ≥
              expectedDbClaim rd.decibel
                (haversine_distance rd.location.1 rd.location.2
                  cfg.latitude cfg.longitude) - CALIBRATION_MARGIN)) := by
  refine ⟨expected_decibel_eq_claim, ?_⟩
  intro rd peer cfg h
  unfold Node.validate_event
  rw [if_neg h]
  simp only [expected_decibel_eq_claim, decide_eq_true_eq]

/-- C8: the canonical digest is invariant under the construction order of the
payload fields — for payloads with the same field/value pairs (in any order,
keys duplicate-free as in a Python dict) the digests agree, for every hash
function in place of SHA-256. -/
theorem c8_digest_canonical (sha256 : String → String)
    (p₁ p₂ : List (String × JVal)) (hperm : p₁.Perm p₂)
    (hnd : (p₁.map Prod.fst).Nodup) :
    get_digest sha256 p₁ = get_digest sha256 p₂ := by
  have h1 : (List.insertionSort keyLE p₁).Perm (List.insertionSort keyLE p₂) :=
    (List.perm_insertionSort keyLE p₁).trans
      (hperm.trans (List.perm_insertionSort keyLE p₂).symm)
  have hnd1 : ((List.insertionSort keyLE p₁).map Prod.fst).Nodup :=
    hnd.perm ((List.perm_insertionSort keyLE p₁).map Prod.fst).symm
  have heq : List.insertionSort keyLE p₁ = List.insertionSort keyLE p₂ :=
    eq_of_perm_sorted_nodup h1 (List.sorted_insertionSort keyLE p₁)
      (List.sorted_insertionSort keyLE p₂) hnd1
  unfold get_digest dumps
  rw [heq]

/-- C8 (witness): the two construction orders of the fixture
`{event_id, validated}` payload hash identically. -/
theorem c8_digest_canonical_witness :
    (p1W.Perm p2W ∧ (p1W.map Prod.fst).Nodup) ∧
      get_digest shaId p1W = get_digest shaId p2W := by
  have hperm : p1W.Perm p2W := by decide
  have hnd : (p1W.map Prod.fst).Nodup := by decide
  exact ⟨⟨hperm, hnd⟩, c8_digest_canonical shaId p1W p2W hperm hnd⟩

/-- Evaluation of `handle_validation_response` for an open event with a
verifying signature and a device present in the re-fetched registry. -/
theorem hvr_eq (sha256 : String → String) (verify : String → String → String → Bool)
    (dA : String → String) (reg : Registry) (st : NodeState)
    (msg : ValidationResponse) (event : PendingEvent) (cfg : AgentCfg)
    (h1 : lookupKey st.pending msg.event_id = some event)
    (h2 : verify msg.public_key (get_digest sha256 (respPayload msg)) msg.signature = true)
    (h3 : lookupKey reg event.raw_data.device_id = some cfg) :
    Node.handle_validation_response sha256 verify dA reg st msg =
      (if (((event.responses ++ [msg]).filter (fun r => r.validated)).length : ℤ) ≥
          quorum_required
            (((get_local_peer_group dA reg (cfg.latitude, cfg.longitude)).card : ℤ) - 1) then
        ⟨⟨eraseKey st.pending msg.event_id, st.counts⟩, some msg.event_id, none, false⟩
      else if ((event.responses ++ [msg]).length : ℤ) ≥
          ((get_local_peer_group dA reg (cfg.latitude, cfg.longitude)).card : ℤ) - 1 then
        ⟨⟨eraseKey st.pending msg.event_id,
            (recordFailure st.counts event.raw_data.device_id).1⟩, none,
          if (recordFailure st.counts event.raw_data.device_id).2 then
            some event.raw_data.device_id
          else none, false⟩
      else
        ⟨⟨insertKey st.pending msg.event_id
            { event with responses := event.responses ++ [msg] }, st.counts⟩,
          none, none, false⟩) := by
  unfold Node.handle_validation_response
  simp only [h1, h2, h3, if_true]

/-- C4: with a verifying response appended, the event resolves as accepted
exactly when the number of positive responses reaches
`ceil((N - 1) * QUORUM_RATIO)`, where `N` is the size of the re-fetched peer
group including the originator; in particular for `N = 5` the quorum is 2.
The check runs on each incoming response (the statement is about one such
step). -/
theorem c4_quorum_threshold (sha256 : String → String)
    (verify : String → String → String → Bool) (dA : String → String)
    (reg : Registry) (st : NodeState) (msg : ValidationResponse)
    (event : PendingEvent) (cfg : AgentCfg)
    (h1 : lookupKey st.pending msg.event_id = some event)
    (h2 : verify msg.public_key (get_digest sha256 (respPayload msg)) msg.signature = true)
    (h3 : lookupKey reg event.raw_data.device_id = some cfg) :
    ((Node.handle_validation_response sha256 verify dA reg st msg).accepted =
        some msg.event_id ↔
      (((event.responses ++ [msg]).filter (fun r => r.validated)).length : ℤ) ≥
        quorum_required
          (((get_local_peer_group dA reg (cfg.latitude, cfg.longitude)).card : ℤ) - 1)) ∧
      quorum_required (5 - 1) = 2 := by
  refine ⟨?_, quorum_required_four⟩
  rw [hvr_eq sha256 verify dA reg st msg event cfg h1 h2 h3]
  split_ifs with hp hq
  · exact iff_of_true rfl hp
  · exact iff_of_false (by simp) hp
  · exact iff_of_false (by simp) hp

/-- C5: a `ValidationResponse` whose signature does not verify against its
embedded public key over the canonical digest of `{event_id, validated}`
(or whose key/signature fails to parse — the same early return) is discarded
entirely: the state is unchanged, no resolution happens, nothing is counted. -/
theorem c5_invalid_signature_discarded (sha256 : String → String)
    (verify : String → String → String → Bool) (dA : String → String)
    (reg : Registry) (st : NodeState) (msg : ValidationResponse)
    (h : verify msg.public_key (get_digest sha256 (respPayload msg)) msg.signature = false) :
    Node.handle_validation_response sha256 verify dA reg st msg =
      ⟨st, none, none, false⟩ := by
  unfold Node.handle_validation_response
  cases hl : lookupKey st.pending msg.event_id with
  | none => rfl
  | some event => simp [h]

/-- C5 (witness): a rejecting verifier leaves the fixture state untouched. -/
theorem c5_invalid_signature_witness :
    verifyNever respT.public_key (get_digest shaId (respPayload respT))
        respT.signature = false ∧
      Node.handle_validation_response shaId verifyNever addrOf regW stW respT =
        ⟨stW, none, none, false⟩ :=
  ⟨rfl, c5_invalid_signature_discarded shaId verifyNever addrOf regW stW respT rfl⟩

/-- C10: if at the moment a verified response for an open event is processed
the freshly re-fetched peer group contains exactly one member (the
originator), the expected-peer count is 0 and the required quorum is
`ceil(0 * 0.45) = 0`, so the step resolves the event as accepted even though
the response's `validated` flag is `false`. -/
theorem c10_zero_expected_peers_accepts (sha256 : String → String)
    (verify : String → String → String → Bool) (dA : String → String)
    (reg : Registry) (st : NodeState) (msg : ValidationResponse)
    (event : PendingEvent) (cfg : AgentCfg)
    (h1 : lookupKey st.pending msg.event_id = some event)
    (h2 : verify msg.public_key (get_digest sha256 (respPayload msg)) msg.signature = true)
    (h3 : lookupKey reg event.raw_data.device_id = some cfg)
    (h4 : (get_local_peer_group dA reg (cfg.latitude, cfg.longitude)).card = 1)
    (_h5 : msg.validated = false) :
    (Node.handle_validation_response sha256 verify dA reg st msg).accepted =
      some msg.event_id := by
  rw [hvr_eq sha256 verify dA reg st msg event cfg h1 h2 h3]
  rw [if_pos]
  · rw [h4]
    have : ((1 : ℕ) : ℤ) - 1 = 0 := by norm_num
    rw [this, quorum_required_zero]
    exact Int.natCast_nonneg _

/-- C10 (witness): a single negative fixture response resolves the fixture
event as accepted when the group holds only the originator. -/
theorem c10_zero_expected_peers_witness :
    (lookupKey stW.pending respF.event_id = some evW ∧
        verifyAlways respF.public_key (get_digest shaId (respPayload respF))
          respF.signature = true ∧
        lookupKey regW evW.raw_data.device_id = some cfg0 ∧
        (get_local_peer_group addrOf regW (cfg0.latitude, cfg0.longitude)).card = 1 ∧
        respF.validated = false) ∧
      (Node.handle_validation_response shaId verifyAlways addrOf regW stW respF).accepted =
        some respF.event_id := by
  have h4 : (get_local_peer_group addrOf regW (cfg0.latitude, cfg0.longitude)).card = 1 := by
    rw [groupW_eq]
    exact Finset.card_singleton _
  exact ⟨⟨rfl, rfl, rfl, h4, rfl⟩,
    c10_zero_expected_peers_accepts shaId verifyAlways addrOf regW stW respF evW cfg0
      rfl rfl rfl h4 rfl⟩

/-- C4 (witness): the quorum equivalence at the fixture state, where the
fixture group has one member so one positive response meets quorum. -/
theorem c4_quorum_witness :
    (lookupKey stW.pending respT.event_id = some evW ∧
        verifyAlways respT.public_key (get_digest shaId (respPayload respT))
          respT.signature = true ∧
        lookupKey regW evW.raw_data.device_id = some cfg0) ∧
      (((Node.handle_validation_response shaId verifyAlways addrOf regW stW respT).accepted =
          some respT.event_id ↔
        (((evW.responses ++ [respT]).filter (fun r => r.validated)).length : ℤ) ≥
          quorum_required
            (((get_local_peer_group addrOf regW (cfg0.latitude, cfg0.longitude)).card : ℤ)
              - 1)) ∧
        quorum_required (5 - 1) = 2) :=
  ⟨⟨rfl, rfl, rfl⟩,
    c4_quorum_threshold shaId verifyAlways addrOf regW stW respT evW cfg0 rfl rfl rfl⟩

/-- C6: a reading whose resolved peer group has at most one member (at most
the originator itself) is resolved immediately: the final accepted-event
actions run on the freshly created event, no `ValidationRequest` is built or
sent, and the event is no longer pending afterwards. -/
theorem c6_auto_accept_small_group (hashHex dA : String → String)
    (myAddr myPub : String) (signReq : String → ℚ × ℚ → String → ℚ → String)
    (reg1 reg2 : Registry) (pending : List (String × PendingEvent))
    (msg : SensorData) (cfg : AgentCfg)
    (hdev : lookupKey reg1 msg.device_id = some cfg)
    (hgrp : (get_local_peer_group dA reg2 (cfg.latitude, cfg.longitude)).card ≤ 1) :
    (Node.handle_sensor_data hashHex dA myAddr myPub signReq reg1 reg2 pending msg).accepted =
        some (hashHex (msg.device_id ++ dash ++ msg.timestamp),
          ⟨msg, [], ambient_noise, 99/100⟩) ∧
      (Node.handle_sensor_data hashHex dA myAddr myPub signReq reg1 reg2 pending
        msg).sentTo = ∅ ∧
      (Node.handle_sensor_data hashHex dA myAddr myPub signReq reg1 reg2 pending
        msg).request = none ∧
      lookupKey
        (Node.handle_sensor_data hashHex dA myAddr myPub signReq reg1 reg2 pending
          msg).pending
        (hashHex (msg.device_id ++ dash ++ msg.timestamp)) = none := by
  have hres : Node.handle_sensor_data hashHex dA myAddr myPub signReq reg1 reg2 pending msg =
      ⟨eraseKey
          (insertKey pending (hashHex (msg.device_id ++ dash ++ msg.timestamp))
            ⟨msg, [], ambient_noise, 99/100⟩)
          (hashHex (msg.device_id ++ dash ++ msg.timestamp)), ∅, none,
        some (hashHex (msg.device_id ++ dash ++ msg.timestamp),
          ⟨msg, [], ambient_noise, 99/100⟩)⟩ := by
    unfold Node.handle_sensor_data
    simp only [hdev]
    rw [if_pos hgrp]
  rw [hres]
  exact ⟨rfl, rfl, rfl, lookup_eraseKey_self _ _⟩

/-- C6 (witness): the fixture reading with the one-device registry resolves
immediately with nothing sent. -/
theorem c6_auto_accept_witness :
    (lookupKey regW msgS.device_id = some cfg0 ∧
        (get_local_peer_group addrOf regW (cfg0.latitude, cfg0.longitude)).card ≤ 1) ∧
      ((Node.handle_sensor_data shaId addrOf addrW "pk" signNothing regW regW []
            msgS).accepted =
          some (shaId (msgS.device_id ++ dash ++ msgS.timestamp),
            ⟨msgS, [], ambient_noise, 99/100⟩) ∧
        (Node.handle_sensor_data shaId addrOf addrW "pk" signNothing regW regW []
          msgS).sentTo = ∅ ∧
        (Node.handle_sensor_data shaId addrOf addrW "pk" signNothing regW regW []
          msgS).request = none ∧
        lookupKey
          (Node.handle_sensor_data shaId addrOf addrW "pk" signNothing regW regW []
            msgS).pending
          (shaId (msgS.device_id ++ dash ++ msgS.timestamp)) = none) := by
  have hgrp : (get_local_peer_group addrOf regW (cfg0.latitude, cfg0.longitude)).card ≤ 1 := by
    rw [groupW_eq]
    exact le_of_eq (Finset.card_singleton _)
  exact ⟨⟨rfl, hgrp⟩,
    c6_auto_accept_small_group shaId addrOf addrW "pk" signNothing regW regW [] msgS cfg0
      rfl hgrp⟩

/-- C1 (counterexample): with three failures recorded for the fixture device,
a successful consensus for that device (the step resolves accepted) leaves
the failure counter at 3 — it is not reset to zero by the success. -/
theorem c1_success_does_not_reset :
    (Node.handle_validation_response shaId verifyAlways addrOf regW stW3 respT).accepted =
        some eid1 ∧
      (Node.handle_validation_response shaId verifyAlways addrOf regW stW3
        respT).state.counts = [(dev1, 3)] ∧
      lookupKey
        (Node.handle_validation_response shaId verifyAlways addrOf regW stW3
          respT).state.counts dev1 ≠ some 0 := by
  have hg : (get_local_peer_group addrOf regW (cfg0.latitude, cfg0.longitude)).card = 1 := by
    rw [groupW_eq]
    exact Finset.card_singleton _
  have hres := hvr_eq shaId verifyAlways addrOf regW stW3 respT evW cfg0 rfl rfl rfl
  rw [hres]
  have hc : (((evW.responses ++ [respT]).filter (fun r => r.validated)).length : ℤ) ≥
      quorum_required
        (((get_local_peer_group addrOf regW (cfg0.latitude, cfg0.longitude)).card : ℤ) - 1) := by
    rw [hg]
    norm_num [evW, respT, quorum_required, QUORUM_RATIO]
  rw [if_pos hc]
  refine ⟨rfl, rfl, ?_⟩
  decide

/-- C1 (amended): recording a consensus failure increments the device's
counter by one; when the counter reaches `FAILURE_THRESHOLD = 5` exactly one
slash request is issued and the counter resets to zero. A successful
consensus, however, does not touch the counter (and issues no slash): the
counter tracks total failures so far since the last slash, not consecutive
ones. -/
theorem c1_escalation_amended :
    (∀ counts mac, (lookupKey counts mac).getD 0 + 1 < FAILURE_THRESHOLD →
        recordFailure counts mac =
          (insertKey counts mac ((lookupKey counts mac).getD 0 + 1), false)) ∧
      (∀ counts mac, FAILURE_THRESHOLD ≤ (lookupKey counts mac).getD 0 + 1 →
        recordFailure counts mac = (insertKey counts mac 0, true)) ∧
      (∀ (sha256 : String → String) (verify : String → String → String → Bool)
          (dA : String → String) (reg : Registry) (st : NodeState)
          (msg : ValidationResponse),
        ((Node.handle_validation_response sha256 verify dA reg st msg).accepted).isSome =
            true →
          (Node.handle_validation_response sha256 verify dA reg st msg).state.counts =
              st.counts ∧
            (Node.handle_validation_response sha256 verify dA reg st msg).slashed = none) := by
  refine ⟨?_, ?_, ?_⟩
  · intro counts mac h
    unfold recordFailure
    rw [if_neg (not_le.mpr h)]
  · intro counts mac h
    unfold recordFailure
    rw [if_pos h]
  · intro sha256 verify dA reg st msg
    unfold Node.handle_validation_response
    split
    · intro h
      simp at h
    · split
      · split
        · intro h
          simp at h
        · dsimp only
          split
          · intro _
            exact ⟨rfl, rfl⟩
          · split
            · intro h
              simp at h
            · intro h
              simp at h
      · intro h
        simp at h

end FetchDev
